import Mathlib

/-!
Shallow embedding of the qBittorrent load balancer (main.py, webhook_server.py).

Conventions used throughout:
* Rationals (`ℚ`) stand for Python floats: speeds in KB/s, torrent progress,
  ages in seconds, timestamps as epoch seconds.  All comparisons in the source
  are order comparisons, which ℚ models exactly.
* Byte counters are `Int` (Python ints).
* A fallible outbound call (HTTP fetch, JSON conversion, tracker RPC) is an
  `Option` parameter: `none` is the exception path of the corresponding
  `try/except` block.
* The re-announce RPC `torrents_reannounce` is modelled as an emitted event
  `(info_hash, forced?)`; the source issues at most one such RPC per torrent
  per tick.
-/

set_option autoImplicit false

/-- Python `int(float(x))` applied to a rational: truncation toward zero
(the numerator divided by the positive denominator, rounding toward 0). -/
def pyTrunc (q : ℚ) : Int := q.num.tdiv q.den

/-- The `PendingTorrent` dataclass of main.py. -/
structure PendingTorrent where
  download_url : String
  release_name : String
  category : Option String := none
deriving Repr, DecidableEq

/-- The `InstanceInfo` dataclass of main.py, restricted to the fields the core
logic reads or writes (the live `client` handle is external I/O and is not a
value).  `last_update` is an epoch-seconds timestamp. -/
structure InstanceInfo where
  name : String
  url : String := ""
  username : String := ""
  password : String := ""
  is_connected : Bool := false
  upload_speed : ℚ := 0
  download_speed : ℚ := 0
  active_downloads : Nat := 0
  free_space : Int := 0
  new_tasks_count : Nat := 0
  total_added_tasks_count : Nat := 0
  success_metrics_count : Nat := 0
  traffic_out : Int := 0
  traffic_limit : Int := 0
  traffic_check_url : String := ""
  reserved_space : Int := 0
  last_update : ℚ := 0
  is_reconnecting : Bool := false
deriving Repr, DecidableEq

/-- The configuration keys consumed by the dispatch and announce logic. -/
structure Config where
  primary_sort_key : String := "upload_speed"
  max_new_tasks_per_instance : Nat
  fast_announce_interval : ℚ := 3
  max_announce_retries : Nat := 12
  debug_add_stopped : Bool := false

/-- `QBittorrentLoadBalancer.add_pending_torrent`: reject empty url or name,
drop silently when a pending entry with the same url exists, else append. -/
def add_pending_torrent (pending : List PendingTorrent)
    (download_url release_name : String) (category : Option String) :
    List PendingTorrent :=
  if download_url = "" then pending
  else if release_name = "" then pending
  else if pending.any (fun t => t.download_url = download_url) then pending
  else pending ++ [{ download_url := download_url, release_name := release_name,
                     category := category }]

/-- A parsed webhook JSON body.  Each field is `data.get(key, "")` of the
source, so a missing JSON key is the empty string. -/
structure WebhookData where
  release_name : String := ""
  download_url : String := ""
  indexer : String := ""
  category : String := ""
deriving Repr, DecidableEq

/-- `WebhookServer._extract_torrent_data`. -/
def extract_torrent_data (data : WebhookData) :
    Option (String × String × String × String) :=
  if data.release_name = "" then none
  else if data.download_url = "" then none
  else some (data.release_name, data.download_url, data.indexer, data.category)

/-- `WebhookServer._process_webhook_data`: returns the success flag together
with the new pending queue.  Python `category or indexer` picks `indexer`
exactly when `category` is the empty string. -/
def process_webhook_data (pending : List PendingTorrent) (data : WebhookData) :
    Bool × List PendingTorrent :=
  match extract_torrent_data data with
  | none => (false, pending)
  | some (release_name, download_url, indexer, category) =>
      (true, add_pending_torrent pending download_url release_name
        (some (if category = "" then indexer else category)))

/-- The `webhook_handler` route of webhook_server.py, as a function from the
optional parsed body to the HTTP status and the new pending queue.  `none`
models `request.get_json()` yielding no data (no body, or an empty JSON
object, both falsy in Python). -/
def webhook_handler (pending : List PendingTorrent) (body : Option WebhookData) :
    Nat × List PendingTorrent :=
  match body with
  | none => (400, pending)
  | some data =>
      let r := process_webhook_data pending data
      if r.1 then (200, r.2) else (500, r.2)

/-- A parsed traffic-probe JSON response.  `out = some q` means the `out`
field converts to the rational `q` (a missing field defaults to `0.0`, hence
`some 0`); `out = none` means the field is present but `float()` raises. -/
structure TrafficData where
  out : Option ℚ
  trafficThrottled : Bool := false

/-- `QBittorrentLoadBalancer._check_instance_traffic`.  `response = none` is
the HTTP-error / invalid-JSON path of the outer `try`.  When the `out`
conversion raises, the throttled check inside the same `try` is skipped. -/
def check_instance_traffic (inst : InstanceInfo) (response : Option TrafficData) :
    InstanceInfo :=
  if inst.traffic_check_url = "" then inst
  else
    match response with
    | none => { inst with traffic_out := 0 }
    | some d =>
        match d.out with
        | none => { inst with traffic_out := 0 }
        | some q =>
            if d.trafficThrottled then { inst with traffic_out := 999999999 }
            else { inst with traffic_out := pyTrunc (q * 1048576) }

/-- `QBittorrentLoadBalancer._is_traffic_within_limit`. -/
def is_traffic_within_limit (inst : InstanceInfo) : Bool :=
  if inst.traffic_out = 0 then true
  else if inst.traffic_limit = 0 then true
  else decide (inst.traffic_out < inst.traffic_limit)

/-- One entry of the `qbittorrent_instances` config array.  For the two
numeric keys, `none` means the key is absent, `some none` means present but
not convertible by `float()`, and `some (some q)` means it converts to `q`
(in MB). -/
structure InstanceConfig where
  name : String
  url : String := ""
  username : String := ""
  password : String := ""
  traffic_check_url : String := ""
  traffic_limit : Option (Option ℚ) := none
  reserved_space : Option (Option ℚ) := none

/-- The traffic-limit conversion of `_create_instance_from_config`: default
`0.0` MB, exception path sets 0, otherwise `int(float(mb) * 1024 * 1024)`. -/
def traffic_limit_bytes : Option (Option ℚ) → Int
  | none => pyTrunc ((0 : ℚ) * 1048576)
  | some none => 0
  | some (some q) => pyTrunc (q * 1048576)

/-- The reserved-space conversion of `_create_instance_from_config`: default
`21 * 1024` MB, exception path sets `21 * BYTES_TO_GB`, otherwise
`int(float(mb) * 1024 * 1024)`. -/
def reserved_space_bytes : Option (Option ℚ) → Int
  | none => pyTrunc ((21 * 1024 : ℚ) * 1048576)
  | some none => 21 * 1073741824
  | some (some q) => pyTrunc (q * 1048576)

/-- `QBittorrentLoadBalancer._create_instance_from_config`. -/
def create_instance_from_config (c : InstanceConfig) : InstanceInfo :=
  { name := c.name, url := c.url, username := c.username, password := c.password,
    traffic_check_url := c.traffic_check_url,
    traffic_limit := traffic_limit_bytes c.traffic_limit,
    reserved_space := reserved_space_bytes c.reserved_space }

/-- The `SUPPORTED_SORT_KEYS` constant of main.py (its keys). -/
def SUPPORTED_SORT_KEYS : List String :=
  ["upload_speed", "download_speed", "active_downloads"]

/-- `QBittorrentLoadBalancer._get_primary_sort_value`: string dispatch on the
configured key, the final `else` falling back to the upload speed. -/
def get_primary_sort_value (cfg : Config) (inst : InstanceInfo) : ℚ :=
  if cfg.primary_sort_key = "upload_speed" then inst.upload_speed
  else if cfg.primary_sort_key = "download_speed" then inst.download_speed
  else if cfg.primary_sort_key = "active_downloads" then (inst.active_downloads : ℚ)
  else inst.upload_speed

/-- The eligibility filter inside `_select_best_instance`. -/
def is_eligible (cfg : Config) (inst : InstanceInfo) : Bool :=
  inst.is_connected &&
  decide (inst.new_tasks_count < cfg.max_new_tasks_per_instance) &&
  decide (inst.free_space > inst.reserved_space) &&
  is_traffic_within_limit inst

/-- The sort key tuple of `_select_best_instance`: primary value, cumulative
added tasks, negated free space (all compared ascending). -/
def sort_key (cfg : Config) (inst : InstanceInfo) : ℚ × Nat × Int :=
  (get_primary_sort_value cfg inst, inst.total_added_tasks_count, -inst.free_space)

/-- Strict lexicographic order on the sort-key tuples. -/
def keyLt (a b : ℚ × Nat × Int) : Prop :=
  a.1 < b.1 ∨ (a.1 = b.1 ∧ (a.2.1 < b.2.1 ∨ (a.2.1 = b.2.1 ∧ a.2.2 < b.2.2)))

/-- Lexicographic order (reflexive) on the sort-key tuples. -/
def keyLe (a b : ℚ × Nat × Int) : Prop :=
  a.1 < b.1 ∨ (a.1 = b.1 ∧ (a.2.1 < b.2.1 ∨ (a.2.1 = b.2.1 ∧ a.2.2 ≤ b.2.2)))

instance keyLt.decidable (a b : ℚ × Nat × Int) : Decidable (keyLt a b) := by
  unfold keyLt; infer_instance

instance keyLe.decidable (a b : ℚ × Nat × Int) : Decidable (keyLe a b) := by
  unfold keyLe; infer_instance

/-- The first element of a nonempty list attaining the minimal sort key:
this is what `list.sort(key=...)` (a stable sort) followed by `[0]`
returns in the source. -/
def pick_best (cfg : Config) (x : InstanceInfo) (xs : List InstanceInfo) :
    InstanceInfo :=
  xs.foldl (fun best i =>
    if keyLt (sort_key cfg i) (sort_key cfg best) then i else best) x

/-- `QBittorrentLoadBalancer._select_best_instance`. -/
def select_best_instance (cfg : Config) (instances : List InstanceInfo) :
    Option InstanceInfo :=
  match instances.filter (is_eligible cfg) with
  | [] => none
  | x :: xs => some (pick_best cfg x xs)

/-- The counter bump performed by `_add_torrent_to_instance` when
`torrents_add` answers a body starting with `Ok`. -/
def bump_counters (inst : InstanceInfo) : InstanceInfo :=
  { inst with new_tasks_count := inst.new_tasks_count + 1,
              total_added_tasks_count := inst.total_added_tasks_count + 1 }

/-- Apply the counter bump to the named instance in the registry (instance
names are unique; the source mutates the selected record in place). -/
def bump_instance (instances : List InstanceInfo) (name : String) :
    List InstanceInfo :=
  instances.map fun i => if i.name = name then bump_counters i else i

/-- `QBittorrentLoadBalancer._process_torrents`: one dispatch pass over the
pending queue.  `add_ok t i` is the outcome of the `torrents_add` RPC for
torrent `t` on instance `i` (success = body starting with `Ok`); the source
removes the torrent from the queue only on success, keeps it on failure, and
stops the pass when no instance is eligible. -/
def process_torrents (cfg : Config)
    (add_ok : PendingTorrent → InstanceInfo → Bool) :
    List InstanceInfo → List PendingTorrent →
    List InstanceInfo × List PendingTorrent
  | instances, [] => (instances, [])
  | instances, t :: rest =>
      match select_best_instance cfg instances with
      | none => (instances, t :: rest)
      | some inst =>
          if add_ok t inst then
            process_torrents cfg add_ok (bump_instance instances inst.name) rest
          else
            let r := process_torrents cfg add_ok instances rest
            (r.1, t :: r.2)

/-- `QBittorrentLoadBalancer._reset_task_counters`. -/
def reset_task_counters (instances : List InstanceInfo) : List InstanceInfo :=
  instances.map fun i => { i with new_tasks_count := 0 }

/-- A torrent record from a `sync_maindata` snapshot. -/
structure TorrentInfo where
  name : String := ""
  added_on : ℚ := 0
  state : String := ""
  progress : ℚ := 0
  num_leechs : Nat := 0
deriving Repr, DecidableEq

/-- A `sync_maindata` snapshot: the `server_state` fields the source reads
and the torrent map as an association list keyed by info-hash. -/
structure Maindata where
  up_info_speed : ℚ := 0
  dl_info_speed : ℚ := 0
  free_space_on_disk : Int := 0
  torrents : List (String × TorrentInfo) := []
deriving Repr, DecidableEq

/-- `QBittorrentLoadBalancer._update_instance_metrics`.  `probe` is the
traffic-probe response used when this is the 30th successful update. -/
def update_instance_metrics (inst : InstanceInfo) (maindata : Maindata)
    (probe : Option TrafficData) (now : ℚ) : InstanceInfo :=
  let inst := { inst with
    upload_speed := maindata.up_info_speed / 1024,
    download_speed := maindata.dl_info_speed / 1024,
    free_space := maindata.free_space_on_disk,
    active_downloads :=
      (maindata.torrents.filter (fun p => p.2.state = "downloading")).length,
    last_update := now,
    success_metrics_count := inst.success_metrics_count + 1 }
  if inst.success_metrics_count % 30 = 0 then check_instance_traffic inst probe
  else inst

/-- `QBittorrentLoadBalancer._update_single_instance`, restricted to the
instance record (the announce supervision it also triggers acts only on the
counter map and is modelled separately).  `fetch1` and `fetch2` are the two
`sync_maindata` attempts; between them the source sleeps five seconds.  The
second attempt is consulted only when the first raises; when both raise the
instance is marked disconnected with `last_update` stamped. -/
def update_single_instance (inst : InstanceInfo)
    (fetch1 fetch2 : Option Maindata) (probe : Option TrafficData) (now : ℚ) :
    InstanceInfo :=
  match fetch1 with
  | some m => update_instance_metrics inst m probe now
  | none =>
      match fetch2 with
      | some m => update_instance_metrics inst m probe now
      | none => { inst with is_connected := false, last_update := now }

/-- The announce retry-counter map (`self.announce_retry_counts`), as an
association list keyed by info-hash. -/
abbrev AnnCounts := List (String × Nat)

/-- Lookup in the counter map. -/
def alLookup : AnnCounts → String → Option Nat
  | [], _ => none
  | (k, v) :: m, x => if k = x then some v else alLookup m x

/-- Deletion from the counter map (Python `del`). -/
def alErase : AnnCounts → String → AnnCounts
  | [], _ => []
  | (k, v) :: m, x => if k = x then alErase m x else (k, v) :: alErase m x

/-- Update/insert in the counter map (Python `d[k] = v`). -/
def alSet : AnnCounts → String → Nat → AnnCounts
  | [], x, v => [(x, v)]
  | (k, w) :: m, x, v =>
      if k = x then (x, v) :: m else (k, w) :: alSet m x v

/-- Keys of the counter map. -/
def alKeys (m : AnnCounts) : List String := m.map Prod.fst

/-- A tracker record from `torrents_trackers`. -/
structure TrackerInfo where
  url : String
  status : Nat := 0
  msg : String := ""
deriving Repr, DecidableEq

/-- The `error_keywords` constant of `_process_instance_announces`. -/
def error_keywords : List String :=
  ["unregistered", "not registered", "not found", "not exist"]

/-- Python `kw in s` for a nonempty keyword `kw`. -/
def strContains (s kw : String) : Bool := (s.splitOn kw).length > 1

/-- The tracker filter of `_process_instance_announces`: drop the dht/pex/lsd
peer sources and every non-HTTP url. -/
def tracker_kept (t : TrackerInfo) : Bool :=
  if t.url.toLower = "dht" ∨ t.url.toLower = "pex" ∨ t.url.toLower = "lsd" then
    false
  else t.url.startsWith "http://" || t.url.startsWith "https://"

/-- The conditional re-announce test: all filtered trackers failed (status 1,
3 or 4), or an error keyword occurs in some tracker message, or the torrent
is peer-starved. -/
def needs_announce (t : TorrentInfo) (filtered : List TrackerInfo) : Bool :=
  (filtered.all fun tr => tr.status = 1 || tr.status = 3 || tr.status = 4) ||
  (filtered.any fun tr =>
    error_keywords.any fun kw => strContains tr.msg.toLower kw) ||
  (decide (t.progress < (0.8 : ℚ)) && decide (t.num_leechs < 3))

/-- `int(60 / fast_announce_interval)` of the source. -/
def first_force_announce (cfg : Config) : Int :=
  pyTrunc (60 / cfg.fast_announce_interval)

/-- `int(120 / fast_announce_interval)` of the source. -/
def second_force_announce (cfg : Config) : Int :=
  pyTrunc (120 / cfg.fast_announce_interval)

/-- The eviction test of `_process_instance_announces`: completed and older
than 60 s, or older than 130 s, or younger than 2 s. -/
def announce_evict (t : TorrentInfo) (now : ℚ) : Prop :=
  (t.progress = 1 ∧ now - t.added_on > 60) ∨
  now - t.added_on > 130 ∨ now - t.added_on < 2

instance announce_evict.decidable (t : TorrentInfo) (now : ℚ) :
    Decidable (announce_evict t now) := by
  unfold announce_evict; infer_instance

/-- State threaded through one announce tick: the counter map plus the
re-announce RPCs issued so far, each tagged with `true` when forced. -/
structure AnnounceState where
  counts : AnnCounts
  announced : List (String × Bool)
deriving Repr, DecidableEq

/-- The re-announce events emitted for one non-evicted torrent whose counter
has just been bumped to `k`: the forced rule fires first (before the
`max_announce_retries` threshold); otherwise, below the threshold, the
tracker list is fetched (`none` = the RPC raised) and the conditional rule
applies to the filtered trackers. -/
def announce_events (cfg : Config)
    (trackers : String → Option (List TrackerInfo))
    (h : String) (t : TorrentInfo) (k : Nat) : List (String × Bool) :=
  if ((k : Int) = first_force_announce cfg ∨
      (k : Int) = second_force_announce cfg) ∧ t.progress ≠ 1 then
    [(h, true)]
  else if k < cfg.max_announce_retries then
    match trackers h with
    | none => []
    | some trs =>
        let filtered := trs.filter tracker_kept
        if filtered.isEmpty then []
        else if needs_announce t filtered then [(h, false)] else []
  else []

/-- The body of the per-torrent loop of `_process_instance_announces`:
evict (removing the counter, announcing nothing), or bump the counter and
emit the events of `announce_events`. -/
def process_one_announce (cfg : Config)
    (trackers : String → Option (List TrackerInfo)) (now : ℚ)
    (st : AnnounceState) (item : String × TorrentInfo) : AnnounceState :=
  if announce_evict item.2 now then
    { counts := alErase st.counts item.1, announced := st.announced }
  else
    let k := (alLookup st.counts item.1).getD 0 + 1
    { counts := alSet st.counts item.1 k,
      announced := st.announced ++ announce_events cfg trackers item.1 item.2 k }

/-- `QBittorrentLoadBalancer._process_instance_announces`: a no-op when
`debug_add_stopped` is set, otherwise the per-torrent loop over the
snapshot. -/
def process_instance_announces (cfg : Config)
    (trackers : String → Option (List TrackerInfo)) (now : ℚ)
    (counts : AnnCounts) (torrents : List (String × TorrentInfo)) :
    AnnounceState :=
  if cfg.debug_add_stopped then { counts := counts, announced := [] }
  else torrents.foldl (process_one_announce cfg trackers now)
    { counts := counts, announced := [] }

/-- One status-tick observation fed to the announce supervisor. -/
structure AnnounceTick where
  now : ℚ
  torrents : List (String × TorrentInfo)
  trackers : String → Option (List TrackerInfo)

/-- The counter map after a sequence of supervisor runs. -/
def announce_counts_after (cfg : Config) :
    List AnnounceTick → AnnCounts → AnnCounts
  | [], counts => counts
  | tick :: rest, counts =>
      announce_counts_after cfg rest
        (process_instance_announces cfg tick.trackers tick.now counts
          tick.torrents).counts

/-- The configuration of the simple-dispatch scenario: one new task per
instance and pass, primary key `upload_speed`. -/
def exCfg : Config := { max_new_tasks_per_instance := 1 }

/-- A configuration with an unrecognized primary sort key. -/
def exCfgBad : Config := { primary_sort_key := "zzz", max_new_tasks_per_instance := 1 }

/-- Instance A of the simple-dispatch scenario: upload 10 KB/s, 500 GiB
free, default 21 GiB reservation. -/
def exA : InstanceInfo :=
  { name := "A", is_connected := true, upload_speed := 10,
    free_space := 536870912000, reserved_space := 22548578304 }

/-- Instance B of the simple-dispatch scenario: upload 20 KB/s. -/
def exB : InstanceInfo :=
  { name := "B", is_connected := true, upload_speed := 20,
    free_space := 536870912000, reserved_space := 22548578304 }

/-- First torrent of the simple-dispatch scenario. -/
def exT1 : PendingTorrent := { download_url := "http://t1", release_name := "T1" }

/-- Second torrent of the simple-dispatch scenario. -/
def exT2 : PendingTorrent := { download_url := "http://t2", release_name := "T2" }

/-- An add-RPC oracle that always answers `Ok`. -/
def exAddOk : PendingTorrent → InstanceInfo → Bool := fun _ _ => true

/-- A configuration for the announce-supervisor scenarios:
`fast_announce_interval = 3`, hence forced thresholds 20 and 40. -/
def exCfgAnn : Config := { max_new_tasks_per_instance := 1, fast_announce_interval := 3 }

/-- An incomplete torrent aged 50 s at observation time 50. -/
def exTor : TorrentInfo := { added_on := 0, progress := 1/2 }

/-- A completed torrent, older than 60 s at observation time 100. -/
def exTorOld : TorrentInfo := { added_on := 0, progress := 1 }

/-! ### Association-list lemmas for the announce counter map -/

theorem alLookup_erase_self (m : AnnCounts) (k : String) :
    alLookup (alErase m k) k = none := by
  induction m with
  | nil => rfl
  | cons p m ih =>
    obtain ⟨a, v⟩ := p
    by_cases h : a = k
    · simpa [alErase, h] using ih
    · simp [alErase, alLookup, h, ih]

theorem alLookup_erase_ne (m : AnnCounts) {x k : String} (h : x ≠ k) :
    alLookup (alErase m k) x = alLookup m x := by
  induction m with
  | nil => rfl
  | cons p m ih =>
    obtain ⟨a, v⟩ := p
    by_cases ha : a = k
    · subst ha
      simp [alErase, alLookup, Ne.symm h, ih]
    · by_cases hx : a = x
      · subst hx
        simp [alErase, alLookup, ha]
      · simp [alErase, alLookup, ha, hx, ih]

theorem alLookup_set_self (m : AnnCounts) (k : String) (v : Nat) :
    alLookup (alSet m k v) k = some v := by
  induction m with
  | nil => simp [alSet, alLookup]
  | cons p m ih =>
    obtain ⟨a, w⟩ := p
    by_cases h : a = k
    · simp [alSet, alLookup, h]
    · simp [alSet, alLookup, h, ih]

theorem alLookup_set_ne (m : AnnCounts) (v : Nat) {x k : String} (h : x ≠ k) :
    alLookup (alSet m k v) x = alLookup m x := by
  induction m with
  | nil => simp [alSet, alLookup, Ne.symm h]
  | cons p m ih =>
    obtain ⟨a, w⟩ := p
    by_cases ha : a = k
    · subst ha
      simp [alSet, alLookup, Ne.symm h]
    · by_cases hx : a = x
      · subst hx
        simp [alSet, alLookup, ha]
      · simp [alSet, alLookup, ha, hx, ih]

theorem alKeys_erase_sub {m : AnnCounts} {k x : String}
    (h : x ∈ alKeys (alErase m k)) : x ∈ alKeys m := by
  induction m with
  | nil => exact absurd h (by simp [alErase, alKeys])
  | cons p m ih =>
    obtain ⟨a, v⟩ := p
    by_cases ha : a = k
    · simp only [alErase, if_pos ha] at h
      exact List.mem_cons_of_mem _ (ih h)
    · simp only [alErase, if_neg ha, alKeys, List.map_cons, List.mem_cons] at h ⊢
      rcases h with h | h
      · exact Or.inl h
      · exact Or.inr (ih h)

theorem alKeys_set_cases {m : AnnCounts} {k x : String} {v : Nat}
    (h : x ∈ alKeys (alSet m k v)) : x ∈ alKeys m ∨ x = k := by
  induction m with
  | nil => simp only [alSet, alKeys, List.map_cons, List.map_nil,
      List.mem_singleton] at h; exact Or.inr h
  | cons p m ih =>
    obtain ⟨a, w⟩ := p
    by_cases ha : a = k
    · simp only [alSet, if_pos ha, alKeys, List.map_cons, List.mem_cons] at h
      rcases h with h | h
      · exact Or.inr h
      · exact Or.inl (List.mem_cons_of_mem _ h)
    · simp only [alSet, if_neg ha, alKeys, List.map_cons, List.mem_cons] at h ⊢
      rcases h with h | h
      · exact Or.inl (Or.inl h)
      · rcases ih h with h2 | h2
        · exact Or.inl (Or.inr h2)
        · exact Or.inr h2

/-! ### Traffic probe and eligibility (claims about `_check_instance_traffic`) -/

/-- C5 (counterexample): the throttled sentinel written by
`_check_instance_traffic` is `999999999`, which is not `10^9`, and an
instance carrying the sentinel with the positive traffic limit
`2 * 10^9` still passes `_is_traffic_within_limit`. -/
theorem traffic_sentinel_counterexample :
    (check_instance_traffic { name := "A", traffic_check_url := "http://m" }
        (some { out := some 0, trafficThrottled := true })).traffic_out ≠ 10 ^ 9 ∧
    is_traffic_within_limit
        { name := "A", traffic_out := 999999999,
          traffic_limit := 2000000000 } = true := by
  constructor
  · decide
  · decide

/-- C5 (amended): a throttled probe response whose `out` field converts
overwrites `traffic_out` with the sentinel `999999999`, and an instance
carrying the sentinel fails `_is_traffic_within_limit` exactly when its
traffic limit is positive and at most the sentinel. -/
theorem traffic_sentinel_spec :
    (∀ (inst : InstanceInfo) (response : TrafficData) (q : ℚ),
      inst.traffic_check_url ≠ "" → response.out = some q →
      response.trafficThrottled = true →
      (check_instance_traffic inst (some response)).traffic_out = 999999999) ∧
    (∀ inst : InstanceInfo, inst.traffic_out = 999999999 →
      0 < inst.traffic_limit → inst.traffic_limit ≤ 999999999 →
      is_traffic_within_limit inst = false) := by
  constructor
  · intro inst r q hurl hout hthr
    obtain ⟨o, th⟩ := r
    dsimp only at hout hthr
    subst hout; subst hthr
    unfold check_instance_traffic
    rw [if_neg hurl]
    rfl
  · intro inst h9 hpos hle
    unfold is_traffic_within_limit
    rw [h9, if_neg (by decide : ¬((999999999 : Int) = 0)),
      if_neg (by omega : ¬(inst.traffic_limit = 0))]
    exact decide_eq_false (by omega)

theorem traffic_sentinel_spec_witness :
    (check_instance_traffic { name := "A", traffic_check_url := "http://m" }
        (some { out := some 5, trafficThrottled := true })).traffic_out
      = 999999999 ∧
    is_traffic_within_limit
        { name := "A", traffic_out := 999999999, traffic_limit := 500 } = false :=
  ⟨traffic_sentinel_spec.1 _ _ 5 (by decide) rfl rfl,
   traffic_sentinel_spec.2 _ rfl (by decide) (by decide)⟩

/-! ### Webhook handler (claim C6) -/

/-- C6 (counterexample): a JSON body missing `release_name`, and one missing
`download_url`, are both answered with HTTP 500 (the processing-failure
path), not 400, and nothing is enqueued. -/
theorem webhook_missing_field_counterexample :
    webhook_handler [] (some { download_url := "http://u" }) = (500, []) ∧
    webhook_handler [] (some { release_name := "R" }) = (500, []) ∧
    (500 : Nat) ≠ 400 := by
  refine ⟨rfl, rfl, by decide⟩

/-- C6 (amended): a request without a JSON body is answered 400 (with the
`No JSON data` error) and nothing is enqueued; a body missing the required
`release_name` or `download_url` makes `_process_webhook_data` fail, so the
handler answers 500 — the internal-failure status — and nothing is
enqueued. -/
theorem webhook_handler_spec (pending : List PendingTorrent) :
    webhook_handler pending none = (400, pending) ∧
    (∀ data : WebhookData,
      data.release_name = "" ∨ data.download_url = "" →
      webhook_handler pending (some data) = (500, pending)) := by
  refine ⟨rfl, fun d hd => ?_⟩
  have hex : extract_torrent_data d = none := by
    unfold extract_torrent_data
    rcases hd with h | h
    · rw [if_pos h]
    · by_cases h1 : d.release_name = ""
      · rw [if_pos h1]
      · rw [if_neg h1, if_pos h]
  simp [webhook_handler, process_webhook_data, hex]

theorem webhook_handler_spec_witness :
    webhook_handler [] none = (400, []) ∧
    webhook_handler [] (some { download_url := "http://u" }) = (500, []) :=
  ⟨(webhook_handler_spec []).1,
   (webhook_handler_spec []).2 _ (Or.inl rfl)⟩

/-! ### Ingest queue (claim C7) -/

/-- C7: `add_pending_torrent` leaves the queue unchanged on an empty url,
an empty name, or an already-pending url, and otherwise appends the new
entry at the tail (FIFO); consequently it preserves distinctness of the
pending download urls. -/
theorem add_pending_torrent_spec (pending : List PendingTorrent)
    (url name : String) (cat : Option String) :
    (add_pending_torrent pending url name cat =
      if url = "" ∨ name = "" ∨ url ∈ pending.map PendingTorrent.download_url
      then pending
      else pending ++ [{ download_url := url, release_name := name,
                         category := cat }]) ∧
    ((pending.map PendingTorrent.download_url).Nodup →
      ((add_pending_torrent pending url name cat).map
        PendingTorrent.download_url).Nodup) := by
  have hmain : add_pending_torrent pending url name cat =
      if url = "" ∨ name = "" ∨ url ∈ pending.map PendingTorrent.download_url
      then pending
      else pending ++ [{ download_url := url, release_name := name,
                         category := cat }] := by
    by_cases h1 : url = ""
    · simp [add_pending_torrent, h1]
    · by_cases h2 : name = ""
      · simp [add_pending_torrent, h1, h2]
      · by_cases h3 : url ∈ pending.map PendingTorrent.download_url
        · have hany : (pending.any fun t => t.download_url = url) = true := by
            simp only [List.any_eq_true, decide_eq_true_eq]
            obtain ⟨t, ht, he⟩ := List.mem_map.mp h3
            exact ⟨t, ht, he⟩
          simp [add_pending_torrent, h1, h2, hany, h3]
        · have hany : (pending.any fun t => t.download_url = url) = false := by
            simp only [List.any_eq_false, decide_eq_true_eq]
            intro t ht he
            exact h3 (List.mem_map.mpr ⟨t, ht, he⟩)
          simp [add_pending_torrent, h1, h2, hany, h3]
  refine ⟨hmain, fun hnd => ?_⟩
  rw [hmain]
  by_cases hc : url = "" ∨ name = "" ∨ url ∈ pending.map PendingTorrent.download_url
  · rw [if_pos hc]; exact hnd
  · rw [if_neg hc]
    push_neg at hc
    simp only [List.map_append, List.map_cons, List.map_nil]
    rw [List.nodup_append]
    exact ⟨hnd, List.nodup_singleton _, by
      intro a ha hb
      rw [List.mem_singleton] at hb
      exact hc.2.2 (hb ▸ ha)⟩

theorem add_pending_torrent_spec_witness :
    ((add_pending_torrent [] "http://u" "N" none).map
      PendingTorrent.download_url).Nodup :=
  (add_pending_torrent_spec [] "http://u" "N" none).2 (by decide)

/-! ### Status tick (claim C8) -/

theorem check_instance_traffic_is_connected (inst : InstanceInfo)
    (response : Option TrafficData) :
    (check_instance_traffic inst response).is_connected = inst.is_connected := by
  unfold check_instance_traffic
  by_cases h : inst.traffic_check_url = ""
  · rw [if_pos h]
  · rw [if_neg h]
    cases response with
    | none => rfl
    | some d =>
      obtain ⟨o, th⟩ := d
      cases o with
      | none => rfl
      | some q => cases th <;> rfl

theorem update_instance_metrics_is_connected (inst : InstanceInfo)
    (m : Maindata) (probe : Option TrafficData) (now : ℚ) :
    (update_instance_metrics inst m probe now).is_connected
      = inst.is_connected := by
  unfold update_instance_metrics
  dsimp only
  split
  · rw [check_instance_traffic_is_connected]
  · rfl

/-- C8: during a status tick, a single snapshot-fetch failure leaves
`is_connected` unchanged (the second attempt is used instead); only when
the retry also fails is the instance marked disconnected with `last_update`
stamped to the current time, all other fields untouched. -/
theorem update_single_instance_retry_spec (inst : InstanceInfo)
    (m : Maindata) (fetch2 : Option Maindata) (probe : Option TrafficData)
    (now : ℚ) :
    ((update_single_instance inst (some m) fetch2 probe now).is_connected
        = inst.is_connected) ∧
    ((update_single_instance inst none (some m) probe now).is_connected
        = inst.is_connected) ∧
    (update_single_instance inst none none probe now
        = { inst with is_connected := false, last_update := now }) :=
  ⟨update_instance_metrics_is_connected inst m probe now,
   update_instance_metrics_is_connected inst m probe now,
   rfl⟩

/-! ### Announce supervisor debug short-circuit (claim C9) -/

/-- C9: with `debug_add_stopped` set, `_process_instance_announces` is a
complete no-op: the counter map is returned untouched and no re-announce
RPC is issued, for every snapshot, clock and tracker oracle. -/
theorem debug_add_stopped_noop (cfg : Config)
    (trackers : String → Option (List TrackerInfo)) (now : ℚ)
    (counts : AnnCounts) (torrents : List (String × TorrentInfo))
    (hdbg : cfg.debug_add_stopped = true) :
    process_instance_announces cfg trackers now counts torrents
      = { counts := counts, announced := [] } := by
  unfold process_instance_announces
  rw [if_pos hdbg]

theorem debug_add_stopped_noop_witness :
    process_instance_announces
        { max_new_tasks_per_instance := 1, debug_add_stopped := true }
        (fun _ => none) 0 [("a", 1)] [("a", {})]
      = { counts := [("a", 1)], announced := [] } :=
  debug_add_stopped_noop _ _ _ _ _ rfl

/-! ### Reserved-space default (claim C10) -/

theorem pyTrunc_intCast (n : Int) : pyTrunc ((n : ℚ)) = n := by
  simp [pyTrunc, Rat.num_intCast, Rat.den_intCast, Int.tdiv_one]

/-- C10: an instance config without a `reserved_space` key, or with one that
does not convert to a number, gets `reserved_space` = 22548578304 bytes
(21 GiB), so the dispatch eligibility space check demands strictly more than
21 GiB free by default. -/
theorem reserved_space_default_spec :
    reserved_space_bytes none = 22548578304 ∧
    reserved_space_bytes (some none) = 22548578304 ∧
    (∀ c : InstanceConfig, c.reserved_space = none →
      (create_instance_from_config c).reserved_space = 22548578304) ∧
    (22548578304 : Int) = 21 * 1024 ^ 3 ∧
    (∀ (cfg : Config) (inst : InstanceInfo),
      inst.reserved_space = 22548578304 → is_eligible cfg inst = true →
      inst.free_space > 22548578304) := by
  have h1 : reserved_space_bytes none = 22548578304 := by
    show pyTrunc ((21 * 1024 : ℚ) * 1048576) = 22548578304
    have hq : ((21 * 1024 : ℚ) * 1048576) = ((22548578304 : Int) : ℚ) := by
      norm_num
    rw [hq, pyTrunc_intCast]
  refine ⟨h1, by decide, ?_, by decide, ?_⟩
  · intro c hc
    unfold create_instance_from_config
    rw [hc]
    exact h1
  · intro cfg inst hres helig
    simp only [is_eligible, Bool.and_eq_true, decide_eq_true_eq] at helig
    exact hres ▸ helig.1.2

theorem reserved_space_default_spec_witness :
    (create_instance_from_config { name := "A" }).reserved_space
      = 22548578304 ∧
    ({ name := "W", is_connected := true, free_space := 536870912000,
       reserved_space := 22548578304 } : InstanceInfo).free_space
      > 22548578304 :=
  ⟨reserved_space_default_spec.2.2.1 { name := "A" } rfl,
   reserved_space_default_spec.2.2.2.2 { max_new_tasks_per_instance := 1 }
     { name := "W", is_connected := true, free_space := 536870912000,
       reserved_space := 22548578304 } rfl (by decide)⟩

/-! ### Selection order lemmas (claim C1) -/

theorem keyLe_refl (a : ℚ × Nat × Int) : keyLe a a :=
  Or.inr ⟨rfl, Or.inr ⟨rfl, le_refl _⟩⟩

theorem keyLt_le {a b : ℚ × Nat × Int} (h : keyLt a b) : keyLe a b := by
  rcases h with h | ⟨e, h⟩
  · exact Or.inl h
  · refine Or.inr ⟨e, ?_⟩
    rcases h with h | ⟨f, h⟩
    · exact Or.inl h
    · exact Or.inr ⟨f, le_of_lt h⟩

theorem keyLe_of_not_lt {a b : ℚ × Nat × Int} (h : ¬ keyLt a b) : keyLe b a := by
  rcases lt_trichotomy a.1 b.1 with l | e | l
  · exact absurd (Or.inl l) h
  · rcases lt_trichotomy a.2.1 b.2.1 with l2 | e2 | l2
    · exact absurd (Or.inr ⟨e, Or.inl l2⟩) h
    · refine Or.inr ⟨e.symm, Or.inr ⟨e2.symm, ?_⟩⟩
      by_contra hlt
      exact h (Or.inr ⟨e, Or.inr ⟨e2, by omega⟩⟩)
    · exact Or.inr ⟨e.symm, Or.inl l2⟩
  · exact Or.inl l

theorem keyLe_trans {a b c : ℚ × Nat × Int}
    (h1 : keyLe a b) (h2 : keyLe b c) : keyLe a c := by
  rcases h1 with h1 | ⟨e1, h1⟩
  · rcases h2 with h2 | ⟨e2, h2⟩
    · exact Or.inl (lt_trans h1 h2)
    · exact Or.inl (e2 ▸ h1)
  · rcases h2 with h2 | ⟨e2, h2⟩
    · exact Or.inl (e1 ▸ h2)
    · refine Or.inr ⟨e1.trans e2, ?_⟩
      rcases h1 with h1 | ⟨f1, h1⟩
      · rcases h2 with h2 | ⟨f2, h2⟩
        · exact Or.inl (lt_trans h1 h2)
        · exact Or.inl (f2 ▸ h1)
      · rcases h2 with h2 | ⟨f2, h2⟩
        · exact Or.inl (f1 ▸ h2)
        · exact Or.inr ⟨f1.trans f2, le_trans h1 h2⟩

theorem pick_best_spec (cfg : Config) (x : InstanceInfo)
    (xs : List InstanceInfo) :
    pick_best cfg x xs ∈ x :: xs ∧
    ∀ y ∈ x :: xs, keyLe (sort_key cfg (pick_best cfg x xs)) (sort_key cfg y) := by
  induction xs generalizing x with
  | nil =>
    refine ⟨List.mem_singleton.mpr rfl, fun y hy => ?_⟩
    rw [List.mem_singleton] at hy
    subst hy
    exact keyLe_refl _
  | cons i xs ih =>
    have hstep : pick_best cfg x (i :: xs) =
        pick_best cfg
          (if keyLt (sort_key cfg i) (sort_key cfg x) then i else x) xs := rfl
    by_cases hlt : keyLt (sort_key cfg i) (sort_key cfg x)
    · rw [if_pos hlt] at hstep
      obtain ⟨ihmem, ihle⟩ := ih i
      have hres := ihle i (List.mem_cons_self _ _)
      constructor
      · rw [hstep]
        rcases List.mem_cons.mp ihmem with h | h
        · rw [h]; exact List.mem_cons_of_mem _ (List.mem_cons_self _ _)
        · exact List.mem_cons_of_mem _ (List.mem_cons_of_mem _ h)
      · intro y hy
        rw [hstep]
        rcases List.mem_cons.mp hy with rfl | hy2
        · exact keyLe_trans hres (keyLt_le hlt)
        · exact ihle y hy2
    · rw [if_neg hlt] at hstep
      obtain ⟨ihmem, ihle⟩ := ih x
      have hres := ihle x (List.mem_cons_self _ _)
      constructor
      · rw [hstep]
        rcases List.mem_cons.mp ihmem with h | h
        · rw [h]; exact List.mem_cons_self _ _
        · exact List.mem_cons_of_mem _ (List.mem_cons_of_mem _ h)
      · intro y hy
        rw [hstep]
        rcases List.mem_cons.mp hy with rfl | hy2
        · exact hres
        · rcases List.mem_cons.mp hy2 with rfl | hmem
          · exact keyLe_trans hres (keyLe_of_not_lt hlt)
          · exact ihle y (List.mem_cons_of_mem _ hmem)

/-- C1: `_select_best_instance` returns nothing exactly when no instance
passes the eligibility predicate (connected, per-round task count below the
cap, free space strictly above the reservation, traffic within limit); a
returned instance is an eligible member of the registry whose key
`(primary, total_added_tasks, -free_space)` is lexicographically minimal
among all eligible instances; and `_get_primary_sort_value` falls back to
the upload speed on any unrecognized sort key. -/
theorem select_best_instance_spec (cfg : Config)
    (instances : List InstanceInfo) :
    (select_best_instance cfg instances = none ↔
      ∀ i ∈ instances, is_eligible cfg i = false) ∧
    (∀ inst, select_best_instance cfg instances = some inst →
      inst ∈ instances ∧ is_eligible cfg inst = true ∧
      ∀ j ∈ instances, is_eligible cfg j = true →
        keyLe (sort_key cfg inst) (sort_key cfg j)) ∧
    (cfg.primary_sort_key ∉ SUPPORTED_SORT_KEYS →
      ∀ inst, get_primary_sort_value cfg inst = inst.upload_speed) := by
  have hfallback : cfg.primary_sort_key ∉ SUPPORTED_SORT_KEYS →
      ∀ inst, get_primary_sort_value cfg inst = inst.upload_speed := by
    intro hk inst
    simp only [SUPPORTED_SORT_KEYS, List.mem_cons, List.not_mem_nil,
      or_false] at hk
    push_neg at hk
    obtain ⟨h1, h2, h3⟩ := hk
    unfold get_primary_sort_value
    rw [if_neg h1, if_neg h2, if_neg h3]
  cases hf : instances.filter (is_eligible cfg) with
  | nil =>
    have hnone : select_best_instance cfg instances = none := by
      unfold select_best_instance
      rw [hf]
    refine ⟨⟨fun _ => ?_, fun _ => hnone⟩, fun inst hinst => ?_, hfallback⟩
    · intro i hi
      have := List.filter_eq_nil_iff.mp hf i hi
      exact Bool.eq_false_iff.mpr this
    · rw [hnone] at hinst
      exact Option.noConfusion hinst
  | cons x xs =>
    have hsome : select_best_instance cfg instances
        = some (pick_best cfg x xs) := by
      unfold select_best_instance
      rw [hf]
    obtain ⟨hmem, hle⟩ := pick_best_spec cfg x xs
    rw [← hf] at hmem
    have hmemf := List.mem_filter.mp hmem
    refine ⟨⟨fun h => ?_, fun hall => ?_⟩, fun inst hinst => ?_, hfallback⟩
    · rw [hsome] at h
      exact Option.noConfusion h
    · have hx : x ∈ instances.filter (is_eligible cfg) := by
        rw [hf]; exact List.mem_cons_self _ _
      have hx2 := List.mem_filter.mp hx
      rw [hall x hx2.1] at hx2
      exact Bool.noConfusion hx2.2
    · rw [hsome] at hinst
      have heq : pick_best cfg x xs = inst := Option.some.inj hinst
      subst heq
      refine ⟨hmemf.1, hmemf.2, fun j hj hel => ?_⟩
      have : j ∈ instances.filter (is_eligible cfg) :=
        List.mem_filter.mpr ⟨hj, hel⟩
      rw [hf] at this
      exact hle j this

theorem select_best_instance_spec_witness :
    exA ∈ [exA, exB] ∧ is_eligible exCfg exA = true ∧
    keyLe (sort_key exCfg exA) (sort_key exCfg exB) ∧
    get_primary_sort_value exCfgBad exA = exA.upload_speed := by
  have h := (select_best_instance_spec exCfg [exA, exB]).2.1 exA (by decide)
  have h2 := (select_best_instance_spec exCfgBad [exA]).2.2 (by decide) exA
  exact ⟨h.1, h.2.1, h.2.2 exB (by decide) (by decide), h2⟩

/-! ### Simple-dispatch scenario (claim C2) -/

/-- C2 (counterexample): in the two-instance scenario (A at 10 KB/s, B at
20 KB/s, cap 1 per pass, adds succeeding), one dispatch pass hands out BOTH
torrents — T1 to A and then, A being capped, T2 to B — so the queue is
empty after the first pass and the totals are A=1, B=1, contradicting the
claim that T2 stays queued and that A ends with 2 and B with 0. -/
theorem simple_dispatch_counterexample :
    (process_torrents exCfg exAddOk [exA, exB] [exT1, exT2]).2 = [] ∧
    ((process_torrents exCfg exAddOk [exA, exB] [exT1, exT2]).1.map
      (fun i => i.total_added_tasks_count)) = [1, 1] := by
  constructor
  · decide
  · decide

/-- C2 (amended): after one dispatch pass over `[T1, T2]`, T1 goes to A
(lowest upload speed) and T2 goes to B (A is capped but B is still
eligible); the queue is empty, each instance has `total_added_tasks = 1`,
and a second pass after the per-round counter reset has nothing left to
dispatch. -/
theorem simple_dispatch_pass :
    process_torrents exCfg exAddOk [exA, exB] [exT1, exT2] =
      ([bump_counters exA, bump_counters exB], []) ∧
    process_torrents exCfg exAddOk
        (reset_task_counters [bump_counters exA, bump_counters exB]) [] =
      (reset_task_counters [bump_counters exA, bump_counters exB], []) := by
  constructor
  · decide
  · decide

/-! ### Announce supervisor lemmas (claims C3, C4) -/

theorem counts_process_one (cfg : Config)
    (trackers : String → Option (List TrackerInfo)) (now : ℚ)
    (st : AnnounceState) (h : String) (t : TorrentInfo) :
    (process_one_announce cfg trackers now st (h, t)).counts =
      if announce_evict t now then alErase st.counts h
      else alSet st.counts h ((alLookup st.counts h).getD 0 + 1) := by
  unfold process_one_announce
  dsimp only
  by_cases hv : announce_evict t now
  · rw [if_pos hv, if_pos hv]
  · rw [if_neg hv, if_neg hv]

theorem announced_process_one (cfg : Config)
    (trackers : String → Option (List TrackerInfo)) (now : ℚ)
    (st : AnnounceState) (h : String) (t : TorrentInfo) :
    (process_one_announce cfg trackers now st (h, t)).announced =
      if announce_evict t now then st.announced
      else st.announced ++ announce_events cfg trackers h t
        ((alLookup st.counts h).getD 0 + 1) := by
  unfold process_one_announce
  dsimp only
  by_cases hv : announce_evict t now
  · rw [if_pos hv, if_pos hv]
  · rw [if_neg hv, if_neg hv]

theorem announce_events_fst {cfg : Config}
    {trackers : String → Option (List TrackerInfo)}
    {h : String} {t : TorrentInfo} {k : Nat} {p : String × Bool}
    (hp : p ∈ announce_events cfg trackers h t k) : p.1 = h := by
  unfold announce_events at hp
  split at hp
  · rw [List.mem_singleton] at hp
    rw [hp]
  · split at hp
    · split at hp
      · exact absurd hp (List.not_mem_nil _)
      · dsimp only at hp
        split at hp
        · exact absurd hp (List.not_mem_nil _)
        · split at hp
          · rw [List.mem_singleton] at hp
            rw [hp]
          · exact absurd hp (List.not_mem_nil _)
    · exact absurd hp (List.not_mem_nil _)

theorem process_one_counts_ne (cfg : Config)
    (trackers : String → Option (List TrackerInfo)) (now : ℚ)
    (st : AnnounceState) (h : String) (t : TorrentInfo) {x : String}
    (hx : x ≠ h) :
    alLookup (process_one_announce cfg trackers now st (h, t)).counts x =
      alLookup st.counts x := by
  rw [counts_process_one]
  by_cases hv : announce_evict t now
  · rw [if_pos hv]
    exact alLookup_erase_ne _ hx
  · rw [if_neg hv]
    exact alLookup_set_ne _ _ hx

theorem process_one_announced_ne (cfg : Config)
    (trackers : String → Option (List TrackerInfo)) (now : ℚ)
    (st : AnnounceState) (h : String) (t : TorrentInfo) {x : String}
    (hx : x ≠ h) (b : Bool) :
    ((x, b) ∈ (process_one_announce cfg trackers now st (h, t)).announced ↔
      (x, b) ∈ st.announced) := by
  rw [announced_process_one]
  by_cases hv : announce_evict t now
  · rw [if_pos hv]
  · rw [if_neg hv, List.mem_append]
    constructor
    · rintro (hm | hm)
      · exact hm
      · exact absurd (announce_events_fst hm) hx
    · exact Or.inl

theorem process_one_keys (cfg : Config)
    (trackers : String → Option (List TrackerInfo)) (now : ℚ)
    (st : AnnounceState) (h : String) (t : TorrentInfo) {x : String}
    (hx : x ∈ alKeys (process_one_announce cfg trackers now st (h, t)).counts) :
    x ∈ alKeys st.counts ∨ (x = h ∧ ¬ announce_evict t now) := by
  rw [counts_process_one] at hx
  by_cases hv : announce_evict t now
  · rw [if_pos hv] at hx
    exact Or.inl (alKeys_erase_sub hx)
  · rw [if_neg hv] at hx
    rcases alKeys_set_cases hx with hm | he
    · exact Or.inl hm
    · exact Or.inr ⟨he, hv⟩

theorem foldl_counts_ne (cfg : Config)
    (trackers : String → Option (List TrackerInfo)) (now : ℚ)
    (items : List (String × TorrentInfo)) (st : AnnounceState) {x : String}
    (hx : x ∉ items.map Prod.fst) :
    alLookup (items.foldl (process_one_announce cfg trackers now) st).counts x
      = alLookup st.counts x := by
  induction items generalizing st with
  | nil => rfl
  | cons it rest ih =>
    obtain ⟨hh, tt⟩ := it
    rw [List.map_cons, List.mem_cons] at hx
    push_neg at hx
    rw [List.foldl_cons, ih _ hx.2, process_one_counts_ne _ _ _ _ _ _ hx.1]

theorem foldl_announced_ne (cfg : Config)
    (trackers : String → Option (List TrackerInfo)) (now : ℚ)
    (items : List (String × TorrentInfo)) (st : AnnounceState) {x : String}
    (hx : x ∉ items.map Prod.fst) (b : Bool) :
    ((x, b) ∈ (items.foldl (process_one_announce cfg trackers now) st).announced
      ↔ (x, b) ∈ st.announced) := by
  induction items generalizing st with
  | nil => exact Iff.rfl
  | cons it rest ih =>
    obtain ⟨hh, tt⟩ := it
    rw [List.map_cons, List.mem_cons] at hx
    push_neg at hx
    rw [List.foldl_cons, ih _ hx.2,
      process_one_announced_ne _ _ _ _ _ _ hx.1]

theorem foldl_keys (cfg : Config)
    (trackers : String → Option (List TrackerInfo)) (now : ℚ)
    (items : List (String × TorrentInfo)) (st : AnnounceState) {x : String}
    (hx : x ∈ alKeys (items.foldl (process_one_announce cfg trackers now)
      st).counts) :
    x ∈ alKeys st.counts ∨
      ∃ h t, (h, t) ∈ items ∧ x = h ∧ ¬ announce_evict t now := by
  induction items generalizing st with
  | nil => exact Or.inl hx
  | cons it rest ih =>
    obtain ⟨hh, tt⟩ := it
    rw [List.foldl_cons] at hx
    rcases ih _ hx with hm | ⟨h, t, hmem, hxh, hne⟩
    · rcases process_one_keys cfg trackers now st hh tt hm with hm2 | ⟨hxh, hne⟩
      · exact Or.inl hm2
      · exact Or.inr ⟨hh, tt, List.mem_cons_self _ _, hxh, hne⟩
    · exact Or.inr ⟨h, t, List.mem_cons_of_mem _ hmem, hxh, hne⟩

theorem process_instance_announces_keys (cfg : Config)
    (trackers : String → Option (List TrackerInfo)) (now : ℚ)
    (counts : AnnCounts) (torrents : List (String × TorrentInfo)) {x : String}
    (hx : x ∈ alKeys (process_instance_announces cfg trackers now counts
      torrents).counts) :
    x ∈ alKeys counts ∨
      ∃ t, (x, t) ∈ torrents ∧ ¬ announce_evict t now := by
  unfold process_instance_announces at hx
  by_cases hd : cfg.debug_add_stopped
  · rw [if_pos hd] at hx
    exact Or.inl hx
  · rw [if_neg hd] at hx
    rcases foldl_keys cfg trackers now torrents _ hx with hm | ⟨h, t, hmem, hxh, hne⟩
    · exact Or.inl hm
    · subst hxh
      exact Or.inr ⟨t, hmem, hne⟩

theorem announce_counts_after_keys (cfg : Config) (ticks : List AnnounceTick) :
    ∀ (counts : AnnCounts) {x : String},
      x ∈ alKeys (announce_counts_after cfg ticks counts) →
      x ∈ alKeys counts ∨
        ∃ tick ∈ ticks, ∃ t, (x, t) ∈ tick.torrents ∧
          ¬ announce_evict t tick.now := by
  induction ticks with
  | nil => intro counts x hx; exact Or.inl hx
  | cons tick rest ih =>
    intro counts x hx
    rcases ih _ hx with hm | ⟨tk, htk, t, hmem, hne⟩
    · rcases process_instance_announces_keys cfg tick.trackers tick.now counts
        tick.torrents hm with hm2 | ⟨t, hmem, hne⟩
      · exact Or.inl hm2
      · exact Or.inr ⟨tick, List.mem_cons_self _ _, t, hmem, hne⟩
    · exact Or.inr ⟨tk, List.mem_cons_of_mem _ htk, t, hmem, hne⟩

theorem not_evict_iff (t : TorrentInfo) (now : ℚ) :
    ¬ announce_evict t now ↔
      2 ≤ now - t.added_on ∧ now - t.added_on ≤ 130 ∧
        ¬(t.progress = 1 ∧ now - t.added_on > 60) := by
  unfold announce_evict
  constructor
  · intro hn
    push_neg at hn
    exact ⟨hn.2.2, hn.2.1, fun hc => absurd (hn.1 hc.1) (not_le.mpr hc.2)⟩
  · rintro ⟨h2, h130, hc⟩ (⟨hp, h60⟩ | hgt | hlt)
    · exact hc ⟨hp, h60⟩
    · exact absurd hgt (not_lt.mpr h130)
    · exact absurd hlt (not_lt.mpr h2)

/-- C3: on a supervisor run over a snapshot, every torrent matching the
eviction test — (completed and older than 60 s), or older than 130 s, or
younger than 2 s — has its info-hash removed from the attempt-counter map,
and no counter increment and no re-announce RPC happens for it that tick;
consequently, over any sequence of runs starting from an empty map, every
info-hash present in the map was observed at least once with
`2 ≤ age ≤ 130` and not (completed and `age > 60`). -/
theorem announce_eviction_invariant (cfg : Config)
    (hdbg : cfg.debug_add_stopped = false) :
    (∀ (trackers : String → Option (List TrackerInfo)) (now : ℚ)
      (counts : AnnCounts) (torrents : List (String × TorrentInfo))
      (h : String) (t : TorrentInfo),
      (torrents.map Prod.fst).Nodup → (h, t) ∈ torrents →
      announce_evict t now →
      alLookup (process_instance_announces cfg trackers now counts
        torrents).counts h = none ∧
      ∀ b, (h, b) ∉ (process_instance_announces cfg trackers now counts
        torrents).announced) ∧
    (∀ (ticks : List AnnounceTick) (x : String),
      x ∈ alKeys (announce_counts_after cfg ticks []) →
      ∃ tick ∈ ticks, ∃ t, (x, t) ∈ tick.torrents ∧
        2 ≤ tick.now - t.added_on ∧ tick.now - t.added_on ≤ 130 ∧
        ¬(t.progress = 1 ∧ tick.now - t.added_on > 60)) := by
  constructor
  · intro trackers now counts torrents h t hnd hmem hev
    obtain ⟨pre, post, rfl⟩ := List.append_of_mem hmem
    rw [List.map_append, List.map_cons, List.nodup_append] at hnd
    obtain ⟨hnd1, hnd2, hdisj⟩ := hnd
    have hpost : h ∉ post.map Prod.fst := (List.nodup_cons.mp hnd2).1
    have hpre : h ∉ pre.map Prod.fst :=
      fun hm => hdisj hm (List.mem_cons_self _ _)
    have hrun : process_instance_announces cfg trackers now counts
        (pre ++ (h, t) :: post) =
        post.foldl (process_one_announce cfg trackers now)
          (process_one_announce cfg trackers now
            (pre.foldl (process_one_announce cfg trackers now)
              { counts := counts, announced := [] }) (h, t)) := by
      unfold process_instance_announces
      rw [if_neg (by simp [hdbg]), List.foldl_append, List.foldl_cons]
    rw [hrun]
    constructor
    · rw [foldl_counts_ne _ _ _ _ _ hpost, counts_process_one, if_pos hev,
        alLookup_erase_self]
    · intro b hb
      rw [foldl_announced_ne _ _ _ _ _ hpost, announced_process_one,
        if_pos hev, foldl_announced_ne _ _ _ _ _ hpre] at hb
      exact List.not_mem_nil _ hb
  · intro ticks x hx
    rcases announce_counts_after_keys cfg ticks [] hx with hm | ⟨tk, htk, t, hmem, hne⟩
    · exact absurd hm (List.not_mem_nil _)
    · exact ⟨tk, htk, t, hmem, (not_evict_iff t tk.now).mp hne⟩

theorem announce_eviction_invariant_witness :
    alLookup (process_instance_announces exCfgAnn (fun _ => none) 100
        [("h", 3)] [("h", exTorOld)]).counts "h" = none ∧
    ("h", false) ∉ (process_instance_announces exCfgAnn (fun _ => none) 100
        [("h", 3)] [("h", exTorOld)]).announced := by
  have hmain := (announce_eviction_invariant exCfgAnn rfl).1 (fun _ => none)
      100 [("h", 3)] [("h", exTorOld)] "h" exTorOld (by decide)
      (List.mem_cons_self _ _)
      (Or.inl ⟨rfl, by norm_num [exTorOld]⟩)
  exact ⟨hmain.1, hmain.2 false⟩

theorem first_force_exCfgAnn : first_force_announce exCfgAnn = 20 := by
  have hq : (60 : ℚ) / exCfgAnn.fast_announce_interval = ((20 : Int) : ℚ) := by
    norm_num [exCfgAnn]
  unfold first_force_announce
  rw [hq, pyTrunc_intCast]

/-- C4: a torrent that survives eviction has its attempt counter incremented
(created at 1 when absent), and when the new count equals
`int(60 / fast_announce_interval)` or `int(120 / fast_announce_interval)`
and the torrent is not complete, a forced re-announce RPC is issued for it —
for every tracker oracle and every `max_announce_retries` — and the
tracker-based conditional check is skipped that tick. -/
theorem forced_reannounce_spec (cfg : Config)
    (hdbg : cfg.debug_add_stopped = false)
    (trackers : String → Option (List TrackerInfo)) (now : ℚ)
    (counts : AnnCounts) (torrents : List (String × TorrentInfo))
    (h : String) (t : TorrentInfo)
    (hnd : (torrents.map Prod.fst).Nodup) (hmem : (h, t) ∈ torrents)
    (hne : ¬ announce_evict t now) :
    alLookup (process_instance_announces cfg trackers now counts
        torrents).counts h = some ((alLookup counts h).getD 0 + 1) ∧
    (((((alLookup counts h).getD 0 + 1 : Nat) : Int) = first_force_announce cfg ∨
      (((alLookup counts h).getD 0 + 1 : Nat) : Int) = second_force_announce cfg) →
      t.progress ≠ 1 →
      (h, true) ∈ (process_instance_announces cfg trackers now counts
        torrents).announced ∧
      (h, false) ∉ (process_instance_announces cfg trackers now counts
        torrents).announced) := by
  obtain ⟨pre, post, rfl⟩ := List.append_of_mem hmem
  rw [List.map_append, List.map_cons, List.nodup_append] at hnd
  obtain ⟨hnd1, hnd2, hdisj⟩ := hnd
  have hpost : h ∉ post.map Prod.fst := (List.nodup_cons.mp hnd2).1
  have hpre : h ∉ pre.map Prod.fst :=
    fun hm => hdisj hm (List.mem_cons_self _ _)
  have hrun : process_instance_announces cfg trackers now counts
      (pre ++ (h, t) :: post) =
      post.foldl (process_one_announce cfg trackers now)
        (process_one_announce cfg trackers now
          (pre.foldl (process_one_announce cfg trackers now)
            { counts := counts, announced := [] }) (h, t)) := by
    unfold process_instance_announces
    rw [if_neg (by simp [hdbg]), List.foldl_append, List.foldl_cons]
  have hk1 : alLookup (pre.foldl (process_one_announce cfg trackers now)
      { counts := counts, announced := [] }).counts h = alLookup counts h :=
    foldl_counts_ne _ _ _ _ _ hpre
  constructor
  · rw [hrun, foldl_counts_ne _ _ _ _ _ hpost, counts_process_one,
      if_neg hne, alLookup_set_self, hk1]
  · intro hforce hprog
    have hevents : announce_events cfg trackers h t
        ((alLookup (pre.foldl (process_one_announce cfg trackers now)
          { counts := counts, announced := [] }).counts h).getD 0 + 1)
        = [(h, true)] := by
      rw [hk1]
      unfold announce_events
      rw [if_pos ⟨hforce, hprog⟩]
    constructor
    · rw [hrun, foldl_announced_ne _ _ _ _ _ hpost, announced_process_one,
        if_neg hne, hevents]
      exact List.mem_append_right _ (List.mem_singleton.mpr rfl)
    · intro hb
      rw [hrun, foldl_announced_ne _ _ _ _ _ hpost, announced_process_one,
        if_neg hne, hevents, List.mem_append] at hb
      rcases hb with hb | hb
      · rw [foldl_announced_ne _ _ _ _ _ hpre] at hb
        exact List.not_mem_nil _ hb
      · rw [List.mem_singleton] at hb
        simp at hb

theorem forced_reannounce_spec_witness :
    alLookup (process_instance_announces exCfgAnn (fun _ => none) 50
        [("h", 19)] [("h", exTor)]).counts "h" = some 20 ∧
    ("h", true) ∈ (process_instance_announces exCfgAnn (fun _ => none) 50
        [("h", 19)] [("h", exTor)]).announced := by
  have hmain := forced_reannounce_spec exCfgAnn rfl (fun _ => none) 50
      [("h", 19)] [("h", exTor)] "h" exTor (by decide)
      (List.mem_cons_self _ _)
      ((not_evict_iff exTor 50).mpr (by norm_num [exTor]))
  refine ⟨hmain.1.trans (by decide), ?_⟩
  exact (hmain.2 (Or.inl (by rw [first_force_exCfgAnn]; decide))
    (by norm_num [exTor])).1
